import Mathlib

/-!
# Verification of the badge-awarding model layer (mome_rath)

Shallow embedding of `src/badge_project/mome_rath/models.py`:

* the `Badge` / `Award` entities and the actors (`User`),
* `Badge.is_awarded_to`, `Badge.allows_award_to`, `Badge.award_to`,
* `BadgeManager.allows_add_by`,
* `Badge.save` slug derivation (with the framework `slugify` filter),
* `scale_image` crop/resize arithmetic (exact rational arithmetic stands
  in for Python float arithmetic),
* `mk_upload_to` path generation (the content-hash function is an
  external collaborator, passed as a parameter; the time and random
  draws are externalized as explicit arguments).

The Django ORM is modelled by explicit state passing: the `Award` table
is a `List Award`, `QuerySet.filter` is `List.filter`, `count() > 0` is a
length test, `objects.get` inspects the filtered list and fails with
`DoesNotExist` / `MultipleObjectsReturned` exactly as Django does, and
`objects.create` appends a fresh row.
-/

namespace MomeRath

/-- An authenticated-or-anonymous Django auth user, reduced to the fields
the model layer reads: primary key, `is_anonymous()` and `is_superuser`. -/
structure User where
  id : Nat
  is_anonymous : Bool
  is_superuser : Bool
  deriving Repr, DecidableEq

/-- A `Badge` row, reduced to the fields the claims touch.
`awarding_prerequisite` is a nullable self-referential foreign key,
kept here as the optional primary key of the prerequisite badge. -/
structure Badge where
  id : Nat
  title : String
  slug : String
  awarding_prerequisite : Option Nat
  deriving Repr, DecidableEq

/-- An `Award` row: badge reference, recipient, optional awarder, text. -/
structure Award where
  id : Nat
  badge : Nat
  user : Nat
  creator : Option Nat
  description : String
  deriving Repr, DecidableEq

/-- The `Award` table plus the next fresh primary key. -/
structure AwardState where
  awards : List Award
  nextId : Nat
  deriving Repr, DecidableEq

/-- The exceptions of `models.py` (`BadgeAwardNotAllowedException`,
`BadgeAlreadyAwardedException`) together with the Django ORM exceptions
that `objects.get` can raise. -/
inductive BadgerErr where
  | awardNotAllowed
  | alreadyAwarded
  | doesNotExist
  | multipleObjectsReturned
  deriving Repr, DecidableEq

/-- `Badge.is_awarded_to(user)`:
`Award.objects.filter(user=user, badge=self).count() > 0`. -/
def is_awarded_to (awards : List Award) (badgeId userId : Nat) : Bool :=
  0 < (awards.filter (fun a => a.user == userId && a.badge == badgeId)).length

/-- `Badge.allows_award_to(user)`. `user` is `none` when the actor is
absent (Python `not user`). A set `awarding_prerequisite` foreign key is
truthy in Python, hence the `Option` match. -/
def allows_award_to (awards : List Award) (b : Badge) (user : Option User) : Bool :=
  match user with
  | none => false
  | some u =>
    if u.is_anonymous then false
    else if u.is_superuser then true
    else
      match b.awarding_prerequisite with
      | some pid => is_awarded_to awards pid u.id
      | none => false

/-- `Award.objects.get(user=awardee, badge=self)`: Django `get` raises
`DoesNotExist` on zero matches and `MultipleObjectsReturned` on more
than one. -/
def get_award (awards : List Award) (badgeId userId : Nat) : Except BadgerErr Award :=
  match awards.filter (fun a => a.user == userId && a.badge == badgeId) with
  | [] => .error .doesNotExist
  | [a] => .ok a
  | _ => .error .multipleObjectsReturned

/-- `Badge.award_to(awardee, awarder, description, raise_already_awarded)`.
Errors model raised exceptions; the returned state is the `Award` table
after the call (unchanged on every raising path, since the only write is
the final `objects.create`). -/
def award_to (st : AwardState) (b : Badge) (awardee : User) (awarder : Option User)
    (description : String) (raise_already_awarded : Bool) :
    Except BadgerErr Award × AwardState :=
  if ¬ allows_award_to st.awards b awarder then
    (.error .awardNotAllowed, st)
  else if is_awarded_to st.awards b.id awardee.id then
    if raise_already_awarded then
      (.error .alreadyAwarded, st)
    else
      (get_award st.awards b.id awardee.id, st)
  else
    let a : Award := { id := st.nextId, badge := b.id, user := awardee.id,
                       creator := (awarder.map (fun u => u.id)),
                       description := description }
    (.ok a, { awards := st.awards ++ [a], nextId := st.nextId + 1 })

/-- `BadgeManager.allows_add_by(user)`: anonymous users are denied; then
`Badge.objects.get(slug='creator')` is attempted, `DoesNotExist` is
caught and yields `False`, while `MultipleObjectsReturned` propagates. -/
def allows_add_by (badges : List Badge) (awards : List Award) (u : User) :
    Except BadgerErr Bool :=
  if u.is_anonymous then .ok false
  else
    match badges.filter (fun b => b.slug == "creator") with
    | [] => .ok false
    | [b] => .ok (is_awarded_to awards b.id u.id)
    | _ => .error .multipleObjectsReturned

/-! ## Slug derivation (`Badge.save` with the framework `slugify` filter) -/

/-- Python `\w` for ASCII strings: `[A-Za-z0-9_]`. -/
def isWordChar (c : Char) : Bool :=
  c.isAlphanum || c == '_'

/-- Python `\s` / `str.strip()` whitespace: space, tab, LF, CR, FF, VT. -/
def isSpaceChar (c : Char) : Bool :=
  c == ' ' || c == '\t' || c == '\n' || c == '\r' || c == '\x0c' || c == '\x0b'

/-- `re.sub(r'[-\s]+', '-', value)`: collapse every run of hyphens and
whitespace into a single hyphen. The flag records whether the previous
character belonged to such a run. -/
def collapseDashRuns : Bool → List Char → List Char
  | _, [] => []
  | inRun, c :: cs =>
    if isSpaceChar c || c == '-' then
      if inRun then collapseDashRuns true cs
      else '-' :: collapseDashRuns true cs
    else c :: collapseDashRuns false cs

/-- `django.template.defaultfilters.slugify` on ASCII input: drop every
character outside `[\w\s-]`, strip surrounding whitespace, lowercase,
then collapse runs of hyphens/whitespace to single hyphens. -/
def slugify (s : String) : String :=
  let kept := s.data.filter (fun c => isWordChar c || isSpaceChar c || c == '-')
  let stripped := ((kept.dropWhile isSpaceChar).reverse.dropWhile isSpaceChar).reverse
  let lowered := stripped.map Char.toLower
  String.mk (collapseDashRuns false lowered)

/-- `Badge.save`: when the slug is falsy (empty), derive it from the
title with `slugify`; otherwise leave the row unchanged. -/
def badge_save (b : Badge) : Badge :=
  if b.slug = "" then { b with slug := slugify b.title } else b

/-! ## `scale_image` crop/resize arithmetic

The PIL decode/encode steps are external collaborators; what the source
computes is the crop box handed to `img.crop` and the size handed to
`img.resize`. Python float arithmetic is modelled by exact rationals and
`int()` (truncation, applied here only to nonnegative values) by
`Rat.floor`. -/

/-- The crop box `(x_offset, y_offset, x_offset + int(crop_width),
y_offset + int(crop_height))` that `scale_image` passes to `img.crop`,
as a function of the source and destination sizes. -/
def scale_image_crop_box (src_width src_height dst_width dst_height : Nat) :
    Int × Int × Int × Int :=
  let src_ratio : ℚ := (src_width : ℚ) / (src_height : ℚ)
  let dst_ratio : ℚ := (dst_width : ℚ) / (dst_height : ℚ)
  if dst_ratio < src_ratio then
    let crop_height : ℚ := (src_height : ℚ)
    let crop_width : ℚ := crop_height * dst_ratio
    let x_offset : Int := ⌊((src_width : ℚ) - crop_width) / 2⌋
    (x_offset, 0, x_offset + ⌊crop_width⌋, ⌊crop_height⌋)
  else
    let crop_width : ℚ := (src_width : ℚ)
    let crop_height : ℚ := crop_width / dst_ratio
    let y_offset : Int := ⌊((src_height : ℚ) - crop_height) / 2⌋
    (0, y_offset, ⌊crop_width⌋, y_offset + ⌊crop_height⌋)

/-- `scale_image` on a decodable image: the crop box it applies and the
exact size `(dst_width, dst_height)` it resizes the cropped region to. -/
def scale_image (src_width src_height dst_width dst_height : Nat) :
    (Int × Int × Int × Int) × (Nat × Nat) :=
  (scale_image_crop_box src_width src_height dst_width dst_height,
   (dst_width, dst_height))

/-! ## `mk_upload_to` upload path generation

`MK_UPLOAD_TMPL` is a `%`-format string; it is embedded as the list of
its literal and field pieces, rendered against the substitution dict.
The `md5(...).hexdigest()` call is an external library collaborator and
is passed in as the hex-digest function; `int(time())` and
`random.randint(0, 1000)` are externalized as explicit arguments. -/

/-- One piece of the `%`-format template: a literal, a plain `%(...)s`
field, or the zero-padded `%(rand)04d` field. -/
inductive TmplPart where
  | lit (s : String)
  | base
  | h1
  | h2
  | hash
  | field_fn
  | now
  | rand4
  | ext
  deriving Repr, DecidableEq

/-- `'%(base)s/%(h1)s/%(h2)s/%(hash)s_%(field_fn)s_%(now)s_%(rand)04d.%(ext)s'`. -/
def MK_UPLOAD_TMPL : List TmplPart :=
  [.base, .lit "/", .h1, .lit "/", .h2, .lit "/", .hash, .lit "_",
   .field_fn, .lit "_", .now, .lit "_", .rand4, .lit ".", .ext]

/-- The substitution dict built inside `upload_to` (the unused `slug` and
`pk` keys of the source dict are omitted: no template field reads them). -/
structure UploadDict where
  base : String
  h1 : String
  h2 : String
  hash : String
  field_fn : String
  ext : String
  now : Nat
  rand : Nat
  deriving Repr, DecidableEq

/-- `'%04d' % rand`: decimal digits left-padded with zeros to width 4. -/
def pad4 (n : Nat) : String :=
  let s := toString n
  String.mk (List.replicate (4 - s.length) '0' ++ s.data)

/-- Render the template against the dict (`tmpl % dict`). -/
def renderTmpl (d : UploadDict) : List TmplPart → String
  | [] => ""
  | .lit s :: rest => s ++ renderTmpl d rest
  | .base :: rest => d.base ++ renderTmpl d rest
  | .h1 :: rest => d.h1 ++ renderTmpl d rest
  | .h2 :: rest => d.h2 ++ renderTmpl d rest
  | .hash :: rest => d.hash ++ renderTmpl d rest
  | .field_fn :: rest => d.field_fn ++ renderTmpl d rest
  | .now :: rest => toString d.now ++ renderTmpl d rest
  | .rand4 :: rest => pad4 d.rand ++ renderTmpl d rest
  | .ext :: rest => d.ext ++ renderTmpl d rest

/-- Inclusive bounds of `random.randint(0, 1000)`: in Python both
endpoints are drawable. -/
def mk_upload_rand_lo : Nat := 0

/-- Upper inclusive bound of the `random.randint(0, 1000)` draw. -/
def mk_upload_rand_hi : Nat := 1000

/-- The set of values the random component of the path can take. -/
def mk_upload_rand_range : Finset Nat :=
  Finset.Icc mk_upload_rand_lo mk_upload_rand_hi

/-- The `upload_to` closure produced by `mk_upload_to(field_fn, ext)`,
applied to an instance with upload meta `(base, slug)`: hash the slug,
take the first two hex characters as shard directories, and render the
template. `hexdigest` is the `md5(...).hexdigest()` collaborator, `now`
is `int(time())` and `rand` the `random.randint(0, 1000)` draw. -/
def mk_upload_to (field_fn ext : String) (hexdigest : String → String)
    (base slug : String) (now rand : Nat) : String :=
  let slug_hash := hexdigest slug
  renderTmpl
    { base := base,
      h1 := String.mk (slug_hash.data.take 1),
      h2 := String.mk ((slug_hash.data.drop 1).take 1),
      hash := slug_hash, field_fn := field_fn, ext := ext,
      now := now, rand := rand }
    MK_UPLOAD_TMPL

/-! ## Helper lemmas -/

/-- An award membership survives appending further rows to the table. -/
theorem is_awarded_to_append (awards l : List Award) (bid uid : Nat)
    (h : is_awarded_to awards bid uid = true) :
    is_awarded_to (awards ++ l) bid uid = true := by
  simp only [is_awarded_to, List.filter_append, List.length_append,
    decide_eq_true_eq] at h ⊢
  omega

/-- Award authorization survives appending further rows to the table. -/
theorem allows_award_to_append (awards l : List Award) (b : Badge) (u : Option User)
    (h : allows_award_to awards b u = true) :
    allows_award_to (awards ++ l) b u = true := by
  cases u with
  | none => simp [allows_award_to] at h
  | some u =>
    cases hanon : u.is_anonymous with
    | true => simp [allows_award_to, hanon] at h
    | false =>
      cases hsup : u.is_superuser with
      | true => simp [allows_award_to, hanon, hsup]
      | false =>
        cases hpre : b.awarding_prerequisite with
        | none => simp [allows_award_to, hanon, hsup, hpre] at h
        | some pid =>
          simp only [allows_award_to, hanon, hsup, hpre] at h ⊢
          simp only [Bool.false_eq_true, if_false]
          exact is_awarded_to_append awards l pid u.id h

/-- `get_award` never raises the award-not-allowed exception. -/
theorem get_award_ne_awardNotAllowed (awards : List Award) (bid uid : Nat) :
    get_award awards bid uid ≠ .error .awardNotAllowed := by
  unfold get_award
  split <;> simp

/-! ## Claim theorems -/

/-- C1: `allows_award_to` returns false for an absent or anonymous actor,
true for a superuser, and for any other authenticated non-superuser it is
true iff the badge has an `awarding_prerequisite` set and that
prerequisite badge is already awarded to the actor (in particular false
when `awarding_prerequisite` is unset). -/
theorem c1_allows_award_to_cases (awards : List Award) (b : Badge) (u : User) :
    allows_award_to awards b none = false
    ∧ (u.is_anonymous = true → allows_award_to awards b (some u) = false)
    ∧ (u.is_anonymous = false → u.is_superuser = true →
        allows_award_to awards b (some u) = true)
    ∧ (u.is_anonymous = false → u.is_superuser = false →
        (allows_award_to awards b (some u) = true ↔
          ∃ pid, b.awarding_prerequisite = some pid
            ∧ is_awarded_to awards pid u.id = true)) := by
  refine ⟨rfl, ?_, ?_, ?_⟩
  · intro hanon; simp [allows_award_to, hanon]
  · intro hanon hsup; simp [allows_award_to, hanon, hsup]
  · intro hanon hsup
    cases hpre : b.awarding_prerequisite with
    | none => simp [allows_award_to, hanon, hsup, hpre]
    | some pid => simp [allows_award_to, hanon, hsup, hpre]

/-- Closed instance of C1: a non-anonymous superuser may award any badge. -/
theorem c1_allows_award_to_cases_witness :
    allows_award_to []
      { id := 0, title := "b", slug := "b", awarding_prerequisite := none }
      (some { id := 1, is_anonymous := false, is_superuser := true }) = true :=
  (c1_allows_award_to_cases [] _
      { id := 1, is_anonymous := false, is_superuser := true }).2.2.1 rfl rfl

/-- C2: `award_to` raises the award-not-allowed error exactly when
`allows_award_to awarder` is false, and in that case the award table is
left unchanged. -/
theorem c2_award_not_allowed (st : AwardState) (b : Badge) (awardee : User)
    (awarder : Option User) (d : String) (r : Bool) :
    ((award_to st b awardee awarder d r).1 = .error .awardNotAllowed
        ↔ allows_award_to st.awards b awarder = false)
    ∧ (allows_award_to st.awards b awarder = false →
        (award_to st b awardee awarder d r).2 = st) := by
  by_cases h : allows_award_to st.awards b awarder
  · rw [Bool.eq_false_iff]
    constructor
    · constructor
      · intro hfail
        exfalso
        unfold award_to at hfail
        simp only [h, not_true_eq_false, if_false] at hfail
        by_cases hdup : is_awarded_to st.awards b.id awardee.id
        · simp only [hdup, if_true] at hfail
          cases r with
          | true => simp at hfail
          | false =>
            simp only [Bool.false_eq_true, if_false] at hfail
            exact get_award_ne_awardNotAllowed st.awards b.id awardee.id hfail
        · simp [hdup] at hfail
      · intro habs; exact absurd h habs
    · intro habs; exact absurd h (by simp [habs])
  · have hb : allows_award_to st.awards b awarder = false := by
      simpa using h
    refine ⟨?_, fun _ => ?_⟩
    · simp [award_to, hb]
    · simp [award_to, hb]

/-- Closed instance of C2: awarding as an anonymous actor fails and
leaves the state unchanged. -/
theorem c2_award_not_allowed_witness :
    (award_to { awards := [], nextId := 0 }
        { id := 0, title := "b", slug := "b", awarding_prerequisite := none }
        { id := 2, is_anonymous := false, is_superuser := false }
        (some { id := 1, is_anonymous := true, is_superuser := false })
        "" false).2 = { awards := [], nextId := 0 } :=
  (c2_award_not_allowed { awards := [], nextId := 0 }
      { id := 0, title := "b", slug := "b", awarding_prerequisite := none }
      { id := 2, is_anonymous := false, is_superuser := false }
      (some { id := 1, is_anonymous := true, is_superuser := false })
      "" false).2 rfl

/-- C5: `is_awarded_to` is true iff at least one `Award` row exists with
exactly that badge and that user. -/
theorem c5_is_awarded_to_iff (awards : List Award) (b : Badge) (u : User) :
    is_awarded_to awards b.id u.id = true ↔
      ∃ a ∈ awards, a.badge = b.id ∧ a.user = u.id := by
  simp only [is_awarded_to, decide_eq_true_eq, List.length_pos_iff_exists_mem,
    List.mem_filter, Bool.and_eq_true, beq_iff_eq]
  constructor
  · rintro ⟨a, ⟨ha, h1, h2⟩⟩; exact ⟨a, ha, h2, h1⟩
  · rintro ⟨a, ha, h1, h2⟩; exact ⟨a, ⟨ha, h2, h1⟩⟩

/-- C6: `allows_add_by` grants badge creation only when a badge with slug
`creator` exists and is already awarded to the user; when no such badge
exists it returns false without raising. -/
theorem c6_allows_add_by (badges : List Badge) (awards : List Award) (u : User) :
    (allows_add_by badges awards u = .ok true →
      ∃ b ∈ badges, b.slug = "creator" ∧ is_awarded_to awards b.id u.id = true)
    ∧ ((∀ b ∈ badges, b.slug ≠ "creator") →
        allows_add_by badges awards u = .ok false) := by
  constructor
  · intro hok
    unfold allows_add_by at hok
    by_cases hanon : u.is_anonymous
    · simp [hanon] at hok
    · simp only [hanon, Bool.false_eq_true, if_false] at hok
      rcases hl : badges.filter (fun b => b.slug == "creator") with _ | ⟨b0, l0⟩
      · rw [hl] at hok; simp at hok
      · rcases l0 with _ | ⟨b1, l1⟩
        · rw [hl] at hok
          simp only [Except.ok.injEq] at hok
          have hmem : b0 ∈ badges.filter (fun b => b.slug == "creator") := by
            rw [hl]; exact List.mem_singleton.mpr rfl
          rw [List.mem_filter] at hmem
          exact ⟨b0, hmem.1, by simpa using hmem.2, hok⟩
        · rw [hl] at hok; simp at hok
  · intro hnone
    have hl : badges.filter (fun b => b.slug == "creator") = [] := by
      rw [List.filter_eq_nil_iff]
      intro b hb
      simpa using hnone b hb
    unfold allows_add_by
    by_cases hanon : u.is_anonymous
    · simp [hanon]
    · simp [hanon, hl]

/-- Closed instance of C6: with no badges at all, creation is denied
without an exception. -/
theorem c6_allows_add_by_witness :
    allows_add_by [] [] { id := 3, is_anonymous := false, is_superuser := false }
      = .ok false :=
  (c6_allows_add_by [] [] { id := 3, is_anonymous := false, is_superuser := false }).2
    (by simp)

/-- C3: with an authorized awarder and at most one existing award for the
pair, awarding twice with `raise_already_awarded = False` returns the same
`Award` both times, and the second call changes nothing. -/
theorem c3_award_to_idempotent (st : AwardState) (b : Badge) (awardee : User)
    (awarder : Option User) (d : String)
    (hallow : allows_award_to st.awards b awarder = true)
    (hone : (st.awards.filter
        (fun a => a.user == awardee.id && a.badge == b.id)).length ≤ 1) :
    ∃ a : Award,
      (award_to st b awardee awarder d false).1 = .ok a
      ∧ award_to (award_to st b awardee awarder d false).2 b awardee awarder d false
          = (.ok a, (award_to st b awardee awarder d false).2) := by
  rcases hl : st.awards.filter (fun a => a.user == awardee.id && a.badge == b.id)
    with _ | ⟨a0, l0⟩
  · -- no existing award for the pair: the first call creates a fresh row
    have hnot : is_awarded_to st.awards b.id awardee.id = false := by
      simp [is_awarded_to, hl]
    have hfirst : award_to st b awardee awarder d false =
        (.ok { id := st.nextId, badge := b.id, user := awardee.id,
               creator := awarder.map (fun u => u.id), description := d },
         { awards := st.awards ++
             [{ id := st.nextId, badge := b.id, user := awardee.id,
                creator := awarder.map (fun u => u.id), description := d }],
           nextId := st.nextId + 1 }) := by
      simp [award_to, hallow, hnot]
    have hfa : (st.awards ++
          [({ id := st.nextId, badge := b.id, user := awardee.id,
              creator := awarder.map (fun u => u.id), description := d } : Award)]).filter
        (fun a => a.user == awardee.id && a.badge == b.id) =
        [({ id := st.nextId, badge := b.id, user := awardee.id,
            creator := awarder.map (fun u => u.id), description := d } : Award)] := by
      rw [List.filter_append, hl]
      simp
    have hyes : is_awarded_to (st.awards ++
          [({ id := st.nextId, badge := b.id, user := awardee.id,
              creator := awarder.map (fun u => u.id), description := d } : Award)])
        b.id awardee.id = true := by
      simp [is_awarded_to, hfa]
    have hget : get_award (st.awards ++
          [({ id := st.nextId, badge := b.id, user := awardee.id,
              creator := awarder.map (fun u => u.id), description := d } : Award)])
        b.id awardee.id =
        .ok { id := st.nextId, badge := b.id, user := awardee.id,
              creator := awarder.map (fun u => u.id), description := d } := by
      unfold get_award
      rw [hfa]
    have hallow1 := allows_award_to_append st.awards
      [({ id := st.nextId, badge := b.id, user := awardee.id,
          creator := awarder.map (fun u => u.id), description := d } : Award)] b awarder hallow
    refine ⟨{ id := st.nextId, badge := b.id, user := awardee.id,
              creator := awarder.map (fun u => u.id), description := d }, ?_, ?_⟩
    · rw [hfirst]
    · rw [hfirst]
      simp [award_to, hallow1, hyes, hget]
  · -- exactly one existing award: both calls read it back and change nothing
    rw [hl] at hone
    have hl0 : l0 = [] := by
      cases l0 with
      | nil => rfl
      | cons x xs => simp at hone
    subst hl0
    have hyes : is_awarded_to st.awards b.id awardee.id = true := by
      simp [is_awarded_to, hl]
    have hget : get_award st.awards b.id awardee.id = .ok a0 := by
      unfold get_award
      rw [hl]
    have hfirst : award_to st b awardee awarder d false = (.ok a0, st) := by
      simp [award_to, hallow, hyes, hget]
    refine ⟨a0, ?_, ?_⟩
    · rw [hfirst]
    · rw [hfirst]
      simp [award_to, hallow, hyes, hget]

/-- Closed instance of C3: a superuser awards a badge to a fresh awardee
twice; both calls return the freshly created award. -/
theorem c3_award_to_idempotent_witness :
    ∃ a : Award,
      (award_to { awards := [], nextId := 0 }
          { id := 7, title := "b", slug := "b", awarding_prerequisite := none }
          { id := 2, is_anonymous := false, is_superuser := false }
          (some { id := 1, is_anonymous := false, is_superuser := true })
          "gg" false).1 = .ok a
      ∧ award_to (award_to { awards := [], nextId := 0 }
            { id := 7, title := "b", slug := "b", awarding_prerequisite := none }
            { id := 2, is_anonymous := false, is_superuser := false }
            (some { id := 1, is_anonymous := false, is_superuser := true })
            "gg" false).2
          { id := 7, title := "b", slug := "b", awarding_prerequisite := none }
          { id := 2, is_anonymous := false, is_superuser := false }
          (some { id := 1, is_anonymous := false, is_superuser := true })
          "gg" false
          = (.ok a, (award_to { awards := [], nextId := 0 }
              { id := 7, title := "b", slug := "b", awarding_prerequisite := none }
              { id := 2, is_anonymous := false, is_superuser := false }
              (some { id := 1, is_anonymous := false, is_superuser := true })
              "gg" false).2) :=
  c3_award_to_idempotent { awards := [], nextId := 0 }
    { id := 7, title := "b", slug := "b", awarding_prerequisite := none }
    { id := 2, is_anonymous := false, is_superuser := false }
    (some { id := 1, is_anonymous := false, is_superuser := true })
    "gg" (by decide) (by decide)

/-- C4 as stated fails when the awardee already holds the badge: with a
superuser awarder and an existing award for the pair, the first strict
call already raises the already-awarded error instead of succeeding. -/
theorem c4_counterexample :
    allows_award_to
        [{ id := 0, badge := 10, user := 2, creator := some 1, description := "" }]
        { id := 10, title := "t", slug := "t", awarding_prerequisite := none }
        (some { id := 1, is_anonymous := false, is_superuser := true }) = true
    ∧ (award_to
        { awards := [{ id := 0, badge := 10, user := 2, creator := some 1,
                       description := "" }], nextId := 1 }
        { id := 10, title := "t", slug := "t", awarding_prerequisite := none }
        { id := 2, is_anonymous := false, is_superuser := false }
        (some { id := 1, is_anonymous := false, is_superuser := true })
        "" true).1 = .error .alreadyAwarded := by
  exact ⟨rfl, rfl⟩

/-- C4 (amended: the awardee must not already hold the badge): with an
authorized awarder and no existing award for the pair, the first strict
call succeeds and the second raises the already-awarded error, leaving
the state produced by the first call unchanged. -/
theorem c4_strict_duplicate (st : AwardState) (b : Badge) (awardee : User)
    (awarder : Option User) (d : String)
    (hallow : allows_award_to st.awards b awarder = true)
    (hfresh : is_awarded_to st.awards b.id awardee.id = false) :
    ∃ a st1, award_to st b awardee awarder d true = (.ok a, st1)
      ∧ award_to st1 b awardee awarder d true = (.error .alreadyAwarded, st1) := by
  have hfirst : award_to st b awardee awarder d true =
      (.ok { id := st.nextId, badge := b.id, user := awardee.id,
             creator := awarder.map (fun u => u.id), description := d },
       { awards := st.awards ++
           [{ id := st.nextId, badge := b.id, user := awardee.id,
              creator := awarder.map (fun u => u.id), description := d }],
         nextId := st.nextId + 1 }) := by
    simp [award_to, hallow, hfresh]
  have hallow1 := allows_award_to_append st.awards
    [({ id := st.nextId, badge := b.id, user := awardee.id,
        creator := awarder.map (fun u => u.id), description := d } : Award)] b awarder hallow
  have hyes : is_awarded_to (st.awards ++
        [({ id := st.nextId, badge := b.id, user := awardee.id,
            creator := awarder.map (fun u => u.id), description := d } : Award)])
      b.id awardee.id = true := by
    simp only [is_awarded_to, List.filter_append, List.length_append,
      decide_eq_true_eq]
    simp
  refine ⟨_, _, hfirst, ?_⟩
  simp [award_to, hallow1, hyes]

/-- Closed instance of C4 (amended): superuser awards strictly twice to a
fresh awardee; second call raises already-awarded. -/
theorem c4_strict_duplicate_witness :
    ∃ a st1,
      award_to { awards := [], nextId := 0 }
          { id := 7, title := "b", slug := "b", awarding_prerequisite := none }
          { id := 2, is_anonymous := false, is_superuser := false }
          (some { id := 1, is_anonymous := false, is_superuser := true })
          "" true = (.ok a, st1)
      ∧ award_to st1
          { id := 7, title := "b", slug := "b", awarding_prerequisite := none }
          { id := 2, is_anonymous := false, is_superuser := false }
          (some { id := 1, is_anonymous := false, is_superuser := true })
          "" true = (.error .alreadyAwarded, st1) :=
  c4_strict_duplicate { awards := [], nextId := 0 }
    { id := 7, title := "b", slug := "b", awarding_prerequisite := none }
    { id := 2, is_anonymous := false, is_superuser := false }
    (some { id := 1, is_anonymous := false, is_superuser := true })
    "" (by decide) (by decide)

/-- C10: when more than one `Award` row exists for the pair, the
non-strict duplicate branch does not return an existing record: the
single-object lookup raises, with the state unchanged. -/
theorem c10_duplicate_lookup_raises (st : AwardState) (b : Badge) (awardee : User)
    (awarder : Option User) (d : String)
    (hallow : allows_award_to st.awards b awarder = true)
    (hdup : 1 < (st.awards.filter
        (fun a => a.user == awardee.id && a.badge == b.id)).length) :
    award_to st b awardee awarder d false = (.error .multipleObjectsReturned, st) := by
  rcases hl : st.awards.filter (fun a => a.user == awardee.id && a.badge == b.id)
    with _ | ⟨a0, _ | ⟨a1, l⟩⟩
  · rw [hl] at hdup; simp at hdup
  · rw [hl] at hdup; simp at hdup
  · have hyes : is_awarded_to st.awards b.id awardee.id = true := by
      simp [is_awarded_to, hl]
    have hget : get_award st.awards b.id awardee.id =
        .error .multipleObjectsReturned := by
      unfold get_award
      rw [hl]
    simp [award_to, hallow, hyes, hget]

/-- Closed instance of C10: two duplicate rows for the pair make the
non-strict call raise instead of returning a record. -/
theorem c10_duplicate_lookup_raises_witness :
    award_to
        { awards := [{ id := 0, badge := 7, user := 2, creator := none,
                       description := "" },
                     { id := 1, badge := 7, user := 2, creator := none,
                       description := "" }], nextId := 2 }
        { id := 7, title := "b", slug := "b", awarding_prerequisite := none }
        { id := 2, is_anonymous := false, is_superuser := false }
        (some { id := 1, is_anonymous := false, is_superuser := true })
        "" false
      = (.error .multipleObjectsReturned,
         { awards := [{ id := 0, badge := 7, user := 2, creator := none,
                        description := "" },
                      { id := 1, badge := 7, user := 2, creator := none,
                        description := "" }], nextId := 2 }) :=
  c10_duplicate_lookup_raises
    { awards := [{ id := 0, badge := 7, user := 2, creator := none,
                   description := "" },
                 { id := 1, badge := 7, user := 2, creator := none,
                   description := "" }], nextId := 2 }
    { id := 7, title := "b", slug := "b", awarding_prerequisite := none }
    { id := 2, is_anonymous := false, is_superuser := false }
    (some { id := 1, is_anonymous := false, is_superuser := true })
    "" (by decide) (by decide)

/-- C7: when the destination box is proportionally narrower the crop
keeps the full height and takes a horizontally centered strip of width
`src_height * dst_ratio`; otherwise it keeps the full width and takes a
vertically centered strip of height `src_width / dst_ratio`; the cropped
region is then resized to exactly `(dst_width, dst_height)`. In
particular 400x300 into a 256x256 box crops the centered 300x300 square
(offsets 50 and 0) and resizes it to 256x256. -/
theorem c7_scale_image_crop (sw sh dw dh : Nat) (hsh : 0 < sh) (hdh : 0 < dh) :
    ((dw : ℚ) / (dh : ℚ) < (sw : ℚ) / (sh : ℚ) →
      scale_image sw sh dw dh =
        ((⌊((sw : ℚ) - (sh : ℚ) * ((dw : ℚ) / (dh : ℚ))) / 2⌋, 0,
          ⌊((sw : ℚ) - (sh : ℚ) * ((dw : ℚ) / (dh : ℚ))) / 2⌋
            + ⌊(sh : ℚ) * ((dw : ℚ) / (dh : ℚ))⌋, (sh : Int)),
         (dw, dh)))
    ∧ (¬ ((dw : ℚ) / (dh : ℚ) < (sw : ℚ) / (sh : ℚ)) →
      scale_image sw sh dw dh =
        ((0, ⌊((sh : ℚ) - (sw : ℚ) / ((dw : ℚ) / (dh : ℚ))) / 2⌋, (sw : Int),
          ⌊((sh : ℚ) - (sw : ℚ) / ((dw : ℚ) / (dh : ℚ))) / 2⌋
            + ⌊(sw : ℚ) / ((dw : ℚ) / (dh : ℚ))⌋),
         (dw, dh)))
    ∧ scale_image 400 300 256 256 = ((50, 0, 350, 300), (256, 256)) := by
  refine ⟨?_, ?_, ?_⟩
  · intro h
    simp only [scale_image, scale_image_crop_box]
    rw [if_pos h]
    simp [Int.floor_natCast]
  · intro h
    simp only [scale_image, scale_image_crop_box]
    rw [if_neg h]
    simp [Int.floor_natCast]
  · simp only [scale_image, scale_image_crop_box]
    rw [if_pos (by norm_num)]
    norm_num [Int.floor_ofNat]

/-- Closed instance of C7: the 400x300 source into the 256x256 box. -/
theorem c7_scale_image_crop_witness :
    scale_image 400 300 256 256 = ((50, 0, 350, 300), (256, 256)) :=
  (c7_scale_image_crop 400 300 256 256 (by norm_num) (by norm_num)).2.2

/-- C8 fails as stated: the random path component is drawn with
`random.randint(0, 1000)`, whose upper bound is inclusive in Python, so
the value 1000 — outside the claimed 0–999 range — is drawable and does
occur verbatim in a generated path. -/
theorem c8_counterexample :
    1000 ∈ mk_upload_rand_range ∧ ¬ (1000 ≤ 999)
    ∧ mk_upload_to "image" "png" (fun _ => "ab") "badge" "s" 5 1000 =
        "badge/a/b/ab_image_5_1000.png" := by
  refine ⟨?_, by decide, rfl⟩
  simp [mk_upload_rand_range, mk_upload_rand_lo, mk_upload_rand_hi, Finset.mem_Icc]

/-- C8 (amended: the random component ranges over 0–1000 inclusive): the
generated upload path is
`base/h1/h2/hash_field_timestamp_rand.ext`, where `hash` is the hex
digest of the slug, `h1`/`h2` are its first and second characters,
`timestamp` is the epoch-seconds argument, and `rand` — zero-padded to
four digits — stays within the inclusive `randint` bounds. -/
theorem c8_upload_path_shape (field_fn ext : String) (hexdigest : String → String)
    (base slug : String) (now rand : Nat)
    (hrand : rand ∈ mk_upload_rand_range) :
    mk_upload_to field_fn ext hexdigest base slug now rand =
      base ++ "/" ++ String.mk ((hexdigest slug).data.take 1) ++ "/"
        ++ String.mk (((hexdigest slug).data.drop 1).take 1) ++ "/"
        ++ hexdigest slug ++ "_" ++ field_fn ++ "_" ++ toString now ++ "_"
        ++ pad4 rand ++ "." ++ ext
    ∧ mk_upload_rand_lo ≤ rand ∧ rand ≤ mk_upload_rand_hi := by
  refine ⟨?_, ?_⟩
  · simp only [mk_upload_to, MK_UPLOAD_TMPL, renderTmpl, String.append_assoc]
    simp
  · simpa [mk_upload_rand_range, Finset.mem_Icc] using hrand

/-- Closed instance of C8 (amended), at a concrete digest and draw. -/
theorem c8_upload_path_shape_witness :
    mk_upload_to "image" "png" (fun _ => "abc9") "badge" "team-player" 1700000000 7 =
      "badge" ++ "/" ++ String.mk (("abc9" : String).data.take 1) ++ "/"
        ++ String.mk ((("abc9" : String).data.drop 1).take 1) ++ "/"
        ++ "abc9" ++ "_" ++ "image" ++ "_" ++ toString (1700000000 : Nat) ++ "_"
        ++ pad4 7 ++ "." ++ "png"
    ∧ mk_upload_rand_lo ≤ 7 ∧ 7 ≤ mk_upload_rand_hi :=
  c8_upload_path_shape "image" "png" (fun _ => "abc9") "badge" "team-player"
    1700000000 7
    (by simp [mk_upload_rand_range, mk_upload_rand_lo, mk_upload_rand_hi,
          Finset.mem_Icc])

/-- C9: `Badge.save` derives an empty slug from the title via `slugify`
(lowercase hyphenation) and leaves an explicitly set slug unchanged; in
particular title "Team Player" with no slug yields `team-player`. -/
theorem c9_save_derives_slug (b : Badge) :
    (b.slug = "" → (badge_save b).slug = slugify b.title)
    ∧ (b.slug ≠ "" → (badge_save b).slug = b.slug)
    ∧ (badge_save { id := 0, title := "Team Player", slug := "",
                    awarding_prerequisite := none }).slug = "team-player" := by
  refine ⟨?_, ?_, by decide⟩
  · intro h
    simp [badge_save, h]
  · intro h
    simp [badge_save, h]

/-- Closed instance of C9: saving with an empty slug fills it from the
title. -/
theorem c9_save_derives_slug_witness :
    (badge_save { id := 3, title := "Team Player", slug := "",
                  awarding_prerequisite := none }).slug =
      slugify (Badge.title { id := 3, title := "Team Player", slug := "",
                             awarding_prerequisite := none }) :=
  (c9_save_derives_slug { id := 3, title := "Team Player", slug := "",
                          awarding_prerequisite := none }).1 rfl

end MomeRath
